import Mathlib

/-!
Shallow embedding of the `Modal` React component, in its two revisions:

* namespace `Accessible` — the advanced revision (ARIA roles, focus trap,
  focus restoration, escape-key handling);
* namespace `Basic` — the simple revision (overlay, content box, close
  button, click-outside only).

DOM elements are identified by natural numbers (`Elem`); events are records
of the fields the handlers consult; handlers are pure functions returning
which callbacks/DOM actions they perform; the rendered output is a tree of
`Node`s mirroring the JSX structure.
-/

/-- Identity of a DOM element. -/
abbrev Elem := Nat

/-- The mouse event fields consulted by `handleClickOutside`:
`e.target` and `e.currentTarget`. -/
structure MouseEvent where
  target : Elem
  currentTarget : Elem
deriving DecidableEq, Repr

/-- The keyboard event fields consulted by the handlers:
`e.key` and `e.shiftKey`. -/
structure KeyboardEvent where
  key : String
  shiftKey : Bool
deriving DecidableEq, Repr

/-- The three-value category enum of the `type` prop:
`'success' | 'error' | 'info'`. -/
inductive ModalType where
  | success
  | error
  | info
deriving DecidableEq, Repr

/-- The runtime string value carried by a `ModalType` prop. -/
def ModalType.toStr : ModalType → String
  | .success => "success"
  | .error => "error"
  | .info => "info"

/-- The props of the `Modal` component (the `onClose` callback is modelled
by the Boolean "invoked" results of the handlers, not stored in the props). -/
structure ModalProps where
  isOpen : Bool
  title : String
  message : String
  type : ModalType
deriving DecidableEq, Repr

/-- Which branch of the `getIconColor` switch is taken. -/
inductive IconBranch where
  | success
  | error
  | info
  | dflt
deriving DecidableEq, Repr

/-- The rendered element tree, mirroring the JSX returned by `Modal`:
the `Overlay` div, the `ModalContent` div (with its ARIA role and
`aria-modal` flag), the `CloseButton`, the `TitleContainer` span, the
`MessageContainer` span, the `IconWrapper` svg (with its computed color),
and plain text children. -/
inductive Node where
  | overlay (children : List Node)
  | content (role : String) (ariaModal : Bool) (children : List Node)
  | closeButton
  | titleContainer (children : List Node)
  | messageContainer (text : String)
  | icon (color : String)
  | text (s : String)

namespace Accessible

/-- `handleClickOutside` of the advanced revision: calls `onClose()` exactly
when `e.target === e.currentTarget`.  Returns whether `onClose` was invoked. -/
def handleClickOutside (e : MouseEvent) : Bool :=
  e.target == e.currentTarget

/-- The mutable state of the advanced revision: its two refs,
`modalRef` and `previousActiveElementRef`. -/
structure ModalRefs where
  modalRef : Option Elem
  previousActiveElement : Option Elem
deriving DecidableEq, Repr

/-- `handleKeyDown` of the advanced revision: calls `onClose()` exactly when
`e.key === 'Escape'`; it reads and writes no refs.  Returns whether `onClose`
was invoked, paired with the (unchanged) refs. -/
def handleKeyDown (e : KeyboardEvent) (s : ModalRefs) : Bool × ModalRefs :=
  if e.key == "Escape" then (true, s) else (false, s)

/-- `getIconColor` of the advanced revision's `IconWrapper`: a switch on the
runtime string value of the `type` prop (the TypeScript union type is erased
at runtime, so the switch is a chain of string-equality tests). -/
def getIconColor (type : String) : String :=
  if type = "success" then "#22c55e"
  else if type = "error" then "#ef4444"
  else if type = "info" then "#3b82f6"
  else "#3b82f6"

/-- Which branch of the advanced revision's `getIconColor` switch runs on a
given string value of `type` (the last branch is the `default:` case). -/
def getIconColorBranch (type : String) : IconBranch :=
  if type = "success" then .success
  else if type = "error" then .error
  else if type = "info" then .info
  else .dflt

/-- `getRole` of the advanced revision:
`type === 'error' ? 'alertdialog' : 'dialog'`. -/
def getRole (type : String) : String :=
  if type = "error" then "alertdialog" else "dialog"

/-- The modal content node as seen by the focus-trap effect: the result of
`modalRef.current.querySelectorAll(...)` is its list of focusable elements in
document order. -/
structure ModalNode where
  focusables : List Elem
deriving DecidableEq, Repr

/-- What one run of `handleTabKey` does to the DOM: whether
`e.preventDefault()` is called, and which element (if any) `.focus()` is
called on. -/
structure TabResult where
  preventDefault : Bool
  focusCall : Option Elem
deriving DecidableEq, Repr

/-- The run that touches nothing (every early `return`). -/
def TabResult.noop : TabResult := ⟨false, none⟩

/-- JavaScript strict equality between `document.activeElement` (an element,
or `null`) and `focusableElements[i]` (an element, or `undefined` when the
query is empty): true only when both sides are the same element, since
`null === undefined` is false in JavaScript. -/
def jsStrictEq (a b : Option Elem) : Bool :=
  match a, b with
  | some x, some y => x == y
  | _, _ => false

/-- `handleTabKey` of the advanced revision's focus-trap effect: returns on a
non-Tab key or a null `modalRef`; otherwise queries the focusable elements,
takes the first and the last (both `undefined` on an empty query), and on
Shift+Tab from the first (resp. Tab from the last) prevents the default and
focuses the last (resp. first), the focus call guarded by optional chaining. -/
def handleTabKey (e : KeyboardEvent) (modalRef : Option ModalNode)
    (activeElement : Option Elem) : TabResult :=
  if e.key ≠ "Tab" then .noop
  else match modalRef with
    | none => .noop
    | some node =>
      let focusableElements := node.focusables
      let firstElement := focusableElements[0]?
      let lastElement := focusableElements[focusableElements.length - 1]?
      if e.shiftKey then
        if jsStrictEq activeElement firstElement then ⟨true, lastElement⟩
        else .noop
      else
        if jsStrictEq activeElement lastElement then ⟨true, firstElement⟩
        else .noop

/-- Modelled browser behavior, not repository code: when `handleTabKey` does
not prevent the default, the browser moves focus to the adjacent element in
document tab order.  The modal's focusable elements are contiguous in
document order, so from a non-boundary element of the modal the adjacent
element is the next (or, for Shift+Tab, previous) entry of the focusables
list. -/
def browserDefaultStep (shift : Bool) (order : List Elem) (active : Elem) :
    Option Elem :=
  let i := order.indexOf active
  if shift then
    if i = 0 then none else order[i - 1]?
  else
    order[i + 1]?

/-- The active element after a Tab (or Shift+Tab) keydown reaches the
document-level listener while the modal is open: the element `handleTabKey`
focuses when it prevents the default, and the browser's default step
otherwise. -/
def nextActiveElement (shift : Bool) (modal : List Elem) (active : Elem) :
    Option Elem :=
  let r := handleTabKey ⟨"Tab", shift⟩ (some ⟨modal⟩) (some active)
  if r.preventDefault then r.focusCall else browserDefaultStep shift modal active

/-- The render function of the advanced revision's `Modal`: `null` when
`isOpen` is false, otherwise the overlay holding the content box (with the
computed ARIA role and `aria-modal`) that holds the close button, the title
container (icon plus title text), and the message container. -/
def Modal (p : ModalProps) : Option Node :=
  if p.isOpen = false then none
  else
    some (.overlay [
      .content (getRole p.type.toStr) true [
        .closeButton,
        .titleContainer [.icon (getIconColor p.type.toStr), .text p.title],
        .messageContainer p.message]])

/-- The ARIA role attribute of the content box rendered by `Modal`, when one
is rendered. -/
def renderedRole (p : ModalProps) : Option String :=
  match Modal p with
  | some (.overlay ((.content r _ _) :: _)) => some r
  | _ => none

/-- Whether a node is a `ModalContent` box. -/
def isContentNode : Node → Bool
  | .content _ _ _ => true
  | _ => false

/-- The children of an `Overlay` node. -/
def overlayChildren : Node → List Node
  | .overlay cs => cs
  | _ => []

/-- What one run of the focus-management effect does: the new value of
`previousActiveElementRef`, the element `.focus()` is called on directly
(the restoration call of the close branch), and whether a zero-delay timer
(deferring focus to the modal content) was scheduled. -/
structure FocusEffectResult where
  newPrev : Option Elem
  focusCall : Option Elem
  timerScheduled : Bool
deriving DecidableEq, Repr

/-- The focus-management `useEffect` of the advanced revision: when `isOpen`,
it saves `document.activeElement` into the ref and schedules the zero-delay
focus timer; otherwise it focuses the saved element if there is one (a null
ref is falsy, so no focus call happens) and leaves the ref unchanged. -/
def focusEffectRun (isOpen : Bool) (documentActive : Elem)
    (prev : Option Elem) : FocusEffectResult :=
  if isOpen then
    { newPrev := some documentActive, focusCall := none, timerScheduled := true }
  else
    { newPrev := prev, focusCall := prev, timerScheduled := false }

/-- Resources touched by one run of the focus-management effect body, given
a fresh timer id: the timers it schedules, and the timers its returned
cleanup clears (`clearTimeout(timeoutId)`).  The closed branch schedules
nothing and returns no cleanup. -/
def focusTimerBody (isOpen : Bool) (t : Nat) : List Nat × List Nat :=
  if isOpen then ([t], [t]) else ([], [])

/-- Resources touched by one run of the focus-trap effect body, given the
identity of the freshly created `handleTabKey` closure: the document-level
keydown listeners it adds, and the listeners its returned cleanup removes
(`removeEventListener` with the same handler).  The closed branch returns
early, adding nothing and returning no cleanup. -/
def trapListenerBody (isOpen : Bool) (h : Nat) : List Nat × List Nat :=
  if isOpen then ([h], [h]) else ([], [])

/-- React's effect lifecycle for one effect keyed on `isOpen`: for each new
value of `isOpen`, run the previous run's cleanup, then the effect body
(with a fresh id); at unmount, run the last pending cleanup.  Returns the
resources still held after unmount. -/
def runEffect (body : Bool → Nat → List Nat × List Nat) :
    List Bool → Nat → List Nat → List Nat → List Nat
  | [], _, held, cleanup => held.diff cleanup
  | o :: rest, n, held, cleanup =>
      runEffect body rest (n + 1) (held.diff cleanup ++ (body o n).1) (body o n).2

end Accessible

namespace Basic

/-- `handleClickOutside` of the simple revision — textually the same test as
in the advanced revision. -/
def handleClickOutside (e : MouseEvent) : Bool :=
  e.target == e.currentTarget

/-- `getIconColor` of the simple revision's `IconWrapper` — the same switch
as in the advanced revision. -/
def getIconColor (type : String) : String :=
  if type = "success" then "#22c55e"
  else if type = "error" then "#ef4444"
  else if type = "info" then "#3b82f6"
  else "#3b82f6"

end Basic

/-! ### Helper lemmas -/

/-- `jsStrictEq` is false whenever its right side is `undefined`. -/
theorem jsEq_none_right (a : Option Elem) :
    Accessible.jsStrictEq a none = false := by
  cases a <;> rfl

/-- A true `jsStrictEq` comparison means both sides are the same element. -/
theorem jsEq_eq_of_true : ∀ {a b : Option Elem},
    Accessible.jsStrictEq a b = true → a = b
  | some x, some y, h => by
      have hxy : x = y := by simpa [Accessible.jsStrictEq] using h
      rw [hxy]
  | some _, none, h => by simp [Accessible.jsStrictEq] at h
  | none, some _, h => by simp [Accessible.jsStrictEq] at h
  | none, none, h => by simp [Accessible.jsStrictEq] at h

/-- An effect whose every run's cleanup releases exactly what the run
acquired leaks nothing over any lifecycle. -/
theorem runEffect_of_balanced (body : Bool → Nat → List Nat × List Nat)
    (hb : ∀ o n, ((body o n).1).diff (body o n).2 = []) :
    ∀ (opens : List Bool) (n : Nat) (held cleanup : List Nat),
      held.diff cleanup = [] →
      Accessible.runEffect body opens n held cleanup = [] := by
  intro opens
  induction opens with
  | nil =>
      intro n held cleanup h
      simpa [Accessible.runEffect] using h
  | cons o rest ih =>
      intro n held cleanup h
      simp only [Accessible.runEffect]
      apply ih
      rw [h]
      simpa using hb o n

/-! ### Claim theorems -/

/-- C1: in both revisions, a click delivered to the overlay invokes `onClose`
iff its target is the overlay itself (`target === currentTarget`); a click
whose target is any other element (a descendant) does not invoke it. -/
theorem click_outside_to_close (e : MouseEvent) :
    (Accessible.handleClickOutside e = true ↔ e.target = e.currentTarget)
    ∧ (Basic.handleClickOutside e = true ↔ e.target = e.currentTarget)
    ∧ (∀ overlay child : Elem, child ≠ overlay →
        Accessible.handleClickOutside ⟨child, overlay⟩ = false
        ∧ Basic.handleClickOutside ⟨child, overlay⟩ = false) := by
  refine ⟨?_, ?_, ?_⟩
  · simp [Accessible.handleClickOutside]
  · simp [Basic.handleClickOutside]
  · intro overlay child h
    constructor <;>
      simp [Accessible.handleClickOutside, Basic.handleClickOutside, h]

/-- C1 witness: a click on the overlay itself closes; a click on a distinct
descendant does not, in either revision. -/
theorem click_outside_to_close_witness :
    Accessible.handleClickOutside ⟨7, 7⟩ = true
    ∧ ((2 : Elem) ≠ 1
        ∧ Accessible.handleClickOutside ⟨2, 1⟩ = false
        ∧ Basic.handleClickOutside ⟨2, 1⟩ = false) :=
  ⟨(click_outside_to_close ⟨7, 7⟩).1.mpr rfl,
   by decide,
   ((click_outside_to_close ⟨7, 7⟩).2.2 1 2 (by decide)).1,
   ((click_outside_to_close ⟨7, 7⟩).2.2 1 2 (by decide)).2⟩

/-- C3: a keydown delivered to the modal content invokes `onClose` iff the
key is `'Escape'`, and the handler leaves the component's refs unchanged. -/
theorem escape_key_close (e : KeyboardEvent) (s : Accessible.ModalRefs) :
    ((Accessible.handleKeyDown e s).1 = true ↔ e.key = "Escape")
    ∧ (Accessible.handleKeyDown e s).2 = s := by
  constructor
  · by_cases h : e.key = "Escape" <;> simp [Accessible.handleKeyDown, h]
  · by_cases h : e.key = "Escape" <;> simp [Accessible.handleKeyDown, h]

/-- C3 witness: Escape invokes the callback, the letter a does not, and the
refs come back unchanged. -/
theorem escape_key_close_witness :
    (Accessible.handleKeyDown ⟨"Escape", false⟩ ⟨none, none⟩).1 = true
    ∧ (Accessible.handleKeyDown ⟨"a", false⟩ ⟨none, none⟩).1 ≠ true
    ∧ (Accessible.handleKeyDown ⟨"a", false⟩ ⟨some 3, some 4⟩).2 = ⟨some 3, some 4⟩ :=
  ⟨(escape_key_close ⟨"Escape", false⟩ ⟨none, none⟩).1.mpr rfl,
   fun h => by
     have := (escape_key_close ⟨"a", false⟩ ⟨none, none⟩).1.mp h
     simp at this,
   (escape_key_close ⟨"a", false⟩ ⟨some 3, some 4⟩).2⟩

/-- C7: `getIconColor` agrees between the two revisions, and maps success to
green `#22c55e`, error to red `#ef4444`, and info to blue `#3b82f6`. -/
theorem icon_color_mapping :
    (∀ t : String, Accessible.getIconColor t = Basic.getIconColor t)
    ∧ Accessible.getIconColor (ModalType.success).toStr = "#22c55e"
    ∧ Accessible.getIconColor (ModalType.error).toStr = "#ef4444"
    ∧ Accessible.getIconColor (ModalType.info).toStr = "#3b82f6" :=
  ⟨fun _ => rfl, rfl, rfl, rfl⟩

/-- C9: when the `type` prop holds one of the three enum values, the
`default:` branch of `getIconColor` does not run; and for every string
outside the enum the function still returns `#3b82f6` (totality). -/
theorem type_enum_invariant :
    (∀ t : String, (t = "success" ∨ t = "error" ∨ t = "info") →
        Accessible.getIconColorBranch t ≠ IconBranch.dflt)
    ∧ (∀ t : String, t ≠ "success" → t ≠ "error" → t ≠ "info" →
        Accessible.getIconColorBranch t = IconBranch.dflt
        ∧ Accessible.getIconColor t = "#3b82f6") := by
  constructor
  · intro t h
    rcases h with h | h | h <;> subst h <;> decide
  · intro t h1 h2 h3
    constructor <;>
      simp [Accessible.getIconColorBranch, Accessible.getIconColor, h1, h2, h3]

/-- C9 witness: the enum value success avoids the default branch, while the
out-of-enum string warning takes it and still yields blue. -/
theorem type_enum_invariant_witness :
    Accessible.getIconColorBranch "success" ≠ IconBranch.dflt
    ∧ (Accessible.getIconColorBranch "warning" = IconBranch.dflt
        ∧ Accessible.getIconColor "warning" = "#3b82f6") :=
  ⟨type_enum_invariant.1 "success" (Or.inl rfl),
   type_enum_invariant.2 "warning" (by decide) (by decide) (by decide)⟩

/-- C5: opening the modal saves the active document element into the ref;
closing focuses exactly the saved element when one is saved and performs no
focus call when none is; an open followed by a close restores the element
that was active at open time. -/
theorem focus_restoration (a a2 : Elem) (prev : Option Elem) :
    (Accessible.focusEffectRun true a prev).newPrev = some a
    ∧ (Accessible.focusEffectRun false a prev).focusCall = prev
    ∧ (Accessible.focusEffectRun false a2
        ((Accessible.focusEffectRun true a prev).newPrev)).focusCall = some a :=
  ⟨rfl, rfl, rfl⟩

/-- C8: over any open/close lifecycle ending in unmount, every zero-delay
focus timer scheduled by the focus effect is cleared by its cleanup, and
every document-level keydown listener added by the trap effect is removed by
its cleanup: no timer or listener is left held. -/
theorem resource_lifecycle_balance (opens : List Bool) :
    Accessible.runEffect Accessible.focusTimerBody opens 0 [] [] = []
    ∧ Accessible.runEffect Accessible.trapListenerBody opens 0 [] [] = [] := by
  constructor
  · refine runEffect_of_balanced _ ?_ opens 0 [] [] rfl
    intro o n
    cases o <;> simp [Accessible.focusTimerBody, List.diff_cons]
  · refine runEffect_of_balanced _ ?_ opens 0 [] [] rfl
    intro o n
    cases o <;> simp [Accessible.trapListenerBody, List.diff_cons]

/-- C6: for any props rendered open, the content box carries role
alertdialog when the type is error, and role dialog when it is success or
info. -/
theorem aria_role_selection (ti me : String) (ty : ModalType) :
    (ty = ModalType.error →
        Accessible.renderedRole ⟨true, ti, me, ty⟩ = some "alertdialog")
    ∧ ((ty = ModalType.success ∨ ty = ModalType.info) →
        Accessible.renderedRole ⟨true, ti, me, ty⟩ = some "dialog") := by
  constructor
  · rintro rfl
    rfl
  · rintro (rfl | rfl) <;> rfl

/-- C6 witness: an open error modal gets role alertdialog, an open info
modal gets role dialog. -/
theorem aria_role_selection_witness :
    Accessible.renderedRole ⟨true, "t", "m", ModalType.error⟩ = some "alertdialog"
    ∧ Accessible.renderedRole ⟨true, "t", "m", ModalType.info⟩ = some "dialog" :=
  ⟨(aria_role_selection "t" "m" ModalType.error).1 rfl,
   (aria_role_selection "t" "m" ModalType.info).2 (Or.inr rfl)⟩

/-- C2: while the modal is open, a Tab or Shift+Tab keydown never moves
focus out of the modal's focusable elements: the next active element always
exists and is one of them, Tab from the last focusable element wraps to the
first, and Shift+Tab from the first wraps to the last. -/
theorem focus_trap_cycles (shift : Bool) (modal : List Elem) (active : Elem)
    (hne : modal ≠ []) (hmem : active ∈ modal) :
    (∃ b, Accessible.nextActiveElement shift modal active = some b ∧ b ∈ modal)
    ∧ (modal[modal.length - 1]? = some active →
        Accessible.nextActiveElement false modal active = modal[0]?)
    ∧ (modal[0]? = some active →
        Accessible.nextActiveElement true modal active = modal[modal.length - 1]?) := by
  have hpos : 0 < modal.length := List.length_pos.mpr hne
  have hlastlt : modal.length - 1 < modal.length := Nat.sub_lt hpos Nat.one_pos
  have hidx : modal.indexOf active < modal.length := List.indexOf_lt_length.mpr hmem
  have heval : ∀ s : Bool, Accessible.nextActiveElement s modal active =
      if s then
        (if Accessible.jsStrictEq (some active) modal[0]? then
          modal[modal.length - 1]?
         else Accessible.browserDefaultStep true modal active)
      else
        (if Accessible.jsStrictEq (some active) modal[modal.length - 1]? then
          modal[0]?
         else Accessible.browserDefaultStep false modal active) := by
    intro s
    cases s
    · by_cases hj : Accessible.jsStrictEq (some active) modal[modal.length - 1]? <;>
        simp [Accessible.nextActiveElement, Accessible.handleTabKey,
          Accessible.TabResult.noop, hj]
    · by_cases hj : Accessible.jsStrictEq (some active) modal[0]? <;>
        simp [Accessible.nextActiveElement, Accessible.handleTabKey,
          Accessible.TabResult.noop, hj]
  refine ⟨?_, ?_, ?_⟩
  · cases shift
    · rw [heval false]
      by_cases hj : Accessible.jsStrictEq (some active) modal[modal.length - 1]?
      · rw [if_pos hj]
        exact ⟨_, List.getElem?_eq_getElem hpos, List.getElem_mem hpos⟩
      · rw [if_neg hj]
        have hnext : modal.indexOf active + 1 < modal.length := by
          rcases Nat.lt_or_ge (modal.indexOf active + 1) modal.length with h | h
          · exact h
          · exfalso
            have heq : modal.indexOf active = modal.length - 1 := by omega
            apply hj
            have hsome : modal[modal.length - 1]? = some active := by
              rw [← heq]
              exact List.getElem?_indexOf hmem
            rw [hsome]
            simp [Accessible.jsStrictEq]
        refine ⟨_, ?_, List.getElem_mem hnext⟩
        simp [Accessible.browserDefaultStep, List.getElem?_eq_getElem hnext]
    · rw [heval true]
      by_cases hj : Accessible.jsStrictEq (some active) modal[0]?
      · rw [if_pos hj]
        exact ⟨_, List.getElem?_eq_getElem hlastlt, List.getElem_mem hlastlt⟩
      · rw [if_neg hj]
        have hi0 : modal.indexOf active ≠ 0 := by
          intro h0
          apply hj
          have hsome : modal[0]? = some active := by
            rw [← h0]
            exact List.getElem?_indexOf hmem
          rw [hsome]
          simp [Accessible.jsStrictEq]
        have hprev : modal.indexOf active - 1 < modal.length := by omega
        refine ⟨_, ?_, List.getElem_mem hprev⟩
        simp [Accessible.browserDefaultStep, hi0, List.getElem?_eq_getElem hprev]
  · intro h2
    rw [heval false, h2]
    simp [Accessible.jsStrictEq]
  · intro h3
    rw [heval true, h3]
    simp [Accessible.jsStrictEq]

/-- C2 witness: in a modal with focusables 10, 20, 30, a Tab keydown from
the last element 30 keeps focus inside the modal (it wraps to 10). -/
theorem focus_trap_cycles_witness :
    ([10, 20, 30] : List Elem) ≠ []
    ∧ (30 : Elem) ∈ ([10, 20, 30] : List Elem)
    ∧ (∃ b, Accessible.nextActiveElement false [10, 20, 30] 30 = some b
        ∧ b ∈ ([10, 20, 30] : List Elem)) :=
  ⟨by decide, by decide,
   (focus_trap_cycles false [10, 20, 30] 30 (by decide) (by decide)).1⟩

/-- C10: `handleTabKey` is a total function that does nothing on a non-Tab
key, a null modal ref, or an empty focusable query, and it prevents the
default (and focuses) only when the active element is the first or the last
focusable element. -/
theorem tab_handler_total (e : KeyboardEvent) (ref : Option Accessible.ModalNode)
    (act : Option Elem) :
    (e.key ≠ "Tab" → Accessible.handleTabKey e ref act = Accessible.TabResult.noop)
    ∧ Accessible.handleTabKey e none act = Accessible.TabResult.noop
    ∧ (∀ node : Accessible.ModalNode, node.focusables = [] →
        Accessible.handleTabKey e (some node) act = Accessible.TabResult.noop)
    ∧ ((Accessible.handleTabKey e ref act).preventDefault = true →
        ∃ node, ref = some node ∧
          (act = node.focusables[0]?
            ∨ act = node.focusables[node.focusables.length - 1]?)) := by
  refine ⟨?_, ?_, ?_, ?_⟩
  · intro h
    simp [Accessible.handleTabKey, h]
  · by_cases hk : e.key = "Tab" <;> simp [Accessible.handleTabKey, hk]
  · intro node hn
    by_cases hk : e.key = "Tab"
    · simp [Accessible.handleTabKey, hk, hn, jsEq_none_right]
    · simp [Accessible.handleTabKey, hk]
  · intro hp
    by_cases hk : e.key = "Tab"
    · cases ref with
      | none =>
          exact absurd hp (by
            simp [Accessible.handleTabKey, hk, Accessible.TabResult.noop])
      | some node =>
          refine ⟨node, rfl, ?_⟩
          by_cases hs : e.shiftKey = true
          · by_cases hj : Accessible.jsStrictEq act node.focusables[0]?
            · exact Or.inl (jsEq_eq_of_true hj)
            · exact absurd hp (by
                simp [Accessible.handleTabKey, hk, hs, hj, Accessible.TabResult.noop])
          · by_cases hj : Accessible.jsStrictEq act
                node.focusables[node.focusables.length - 1]?
            · exact Or.inr (jsEq_eq_of_true hj)
            · exact absurd hp (by
                simp [Accessible.handleTabKey, hk, hs, hj, Accessible.TabResult.noop])
    · exact absurd hp (by
        simp [Accessible.handleTabKey, hk, Accessible.TabResult.noop])

/-- C10 witness: a non-Tab key does nothing, and a Tab keydown whose
preventDefault fired was at the first or last focusable element. -/
theorem tab_handler_total_witness :
    ("a" : String) ≠ "Tab"
    ∧ Accessible.handleTabKey ⟨"a", false⟩ none none = Accessible.TabResult.noop
    ∧ (∃ node, (some (⟨[5]⟩ : Accessible.ModalNode) : Option Accessible.ModalNode)
          = some node
        ∧ ((some 5 : Option Elem) = node.focusables[0]?
            ∨ (some 5 : Option Elem)
              = node.focusables[node.focusables.length - 1]?)) :=
  ⟨by decide,
   (tab_handler_total ⟨"a", false⟩ none none).1 (by decide),
   (tab_handler_total ⟨"Tab", false⟩ (some ⟨[5]⟩) (some 5)).2.2.2 (by decide)⟩

/-- C4: the advanced revision renders nothing iff `isOpen` is false, and
when open it renders the overlay whose children hold exactly one content box
containing the close button, the type icon, the title, and the message. -/
theorem open_closed_rendering (p : ModalProps) :
    (Accessible.Modal p = none ↔ p.isOpen = false)
    ∧ (p.isOpen = true →
        Accessible.Modal p = some (Node.overlay
          [Node.content (Accessible.getRole p.type.toStr) true
            [Node.closeButton,
             Node.titleContainer
               [Node.icon (Accessible.getIconColor p.type.toStr),
                Node.text p.title],
             Node.messageContainer p.message]]))
    ∧ (∀ root, Accessible.Modal p = some root →
        ((Accessible.overlayChildren root).filter Accessible.isContentNode).length
          = 1) := by
  refine ⟨?_, ?_, ?_⟩
  · cases ho : p.isOpen <;> simp [Accessible.Modal, ho]
  · intro ho
    simp [Accessible.Modal, ho]
  · intro root hroot
    cases ho : p.isOpen
    · rw [show Accessible.Modal p = none by simp [Accessible.Modal, ho]] at hroot
      cases hroot
    · simp only [Accessible.Modal, ho] at hroot
      simp only [Bool.true_eq_false, if_false, Option.some.injEq] at hroot
      rw [← hroot]
      rfl

/-- C4 witness: a closed modal renders nothing; an open success modal
renders the full overlay/content tree with its close button, green icon,
title, and message. -/
theorem open_closed_rendering_witness :
    Accessible.Modal ⟨false, "t", "m", ModalType.info⟩ = none
    ∧ Accessible.Modal ⟨true, "t", "m", ModalType.success⟩ = some (Node.overlay
        [Node.content "dialog" true
          [Node.closeButton,
           Node.titleContainer [Node.icon "#22c55e", Node.text "t"],
           Node.messageContainer "m"]]) :=
  ⟨(open_closed_rendering ⟨false, "t", "m", ModalType.info⟩).1.mpr rfl,
   (open_closed_rendering ⟨true, "t", "m", ModalType.success⟩).2.1 rfl⟩
